import Mathlib

/-
Verification of the GalSim config-processing orchestration layer
(galsim/config/process.py and galsim/config/input.py) against its
natural-language specification.

Each Python function relevant to the claims is shallowly embedded as an
executable Lean definition.  Collaborators that the orchestrator only calls
(the nobj-counting functions, loader kwargs resolvers, constructors) are
modelled as explicit function parameters, so every theorem quantifies over
all possible collaborator behaviours.
-/

namespace GalSim

/-! ## The `Process` dispatch loop (process.py, lines 285-446)

`Process` iterates over `file_num in range(nfiles)`.  For each file it
records the current running totals `image_num` and `obj_num` in the task
kwargs, calls `nobj_func` to get the list of per-image object counts for
that file, advances the totals, checks the `skip` / `noclobber` conditions
(which `continue` past the dispatch), and finally either puts the task on
the multiprocessing queue (`nproc > 1`) or runs it inline.

The collaborator `nobj_func(config, file_num, image_num)` is modelled as a
function `nobjF : Nat → Nat → List Nat` of the file number and the starting
image number of the file. -/

/-- The kwargs fixed for a file's build task before dispatch
(process.py lines 322-326). -/
structure TaskKwargs where
  file_num : Nat
  image_num : Nat
  obj_num : Nat
deriving DecidableEq, Repr

/-- The two conditions that make `Process` skip a file after advancing the
counters: `output.skip` parsed true (lines 344-349), or `output.noclobber`
parsed true while the output file already exists (lines 350-357). -/
structure FileFlags where
  skip : Bool
  noclobberHit : Bool
deriving DecidableEq, Repr

/-- Whether a task was put on the `task_queue` (`nproc > 1`) or run
synchronously in the caller (lines 412-419). -/
inductive Dispatch where
  | toQueue
  | ranInline
deriving DecidableEq, Repr

/-- The body of the `for file_num in range(nfiles)` loop of `Process`
(process.py lines 294-421), iterating from file number `fn` with
`remaining` files left, carrying the running totals `im` (`image_num`) and
`ob` (`obj_num`).  Returns the ordered list of dispatched tasks.
Skipped files produce no task but still advance the totals, exactly as in
the source where lines 340-341 precede the skip checks at 343-357. -/
def processFrom (nobjF : Nat → Nat → List Nat) (flags : Nat → FileFlags)
    (nproc : Nat) : Nat → Nat → Nat → Nat → List (TaskKwargs × Dispatch)
  | _, 0, _, _ => []
  | fn, remaining + 1, im, ob =>
    -- kwargs = { 'file_name':…, 'image_num': image_num, 'obj_num': obj_num }
    let kwargs : TaskKwargs := ⟨fn, im, ob⟩
    -- nobj = nobj_func(kwargs['config'], file_num, image_num)
    let nobj := nobjF fn im
    -- image_num += len(nobj); obj_num += sum(nobj)
    let im' := im + nobj.length
    let ob' := ob + nobj.sum
    if (flags fn).skip then
      processFrom nobjF flags nproc (fn + 1) remaining im' ob'
    else if (flags fn).noclobberHit then
      processFrom nobjF flags nproc (fn + 1) remaining im' ob'
    else
      (kwargs, if nproc > 1 then Dispatch.toQueue else Dispatch.ranInline)
        :: processFrom nobjF flags nproc (fn + 1) remaining im' ob'

/-- The task-producing part of `Process` (process.py lines 285-421):
`image_num = 0; obj_num = 0` and then the loop over all `nfiles` files. -/
def ProcessTasks (nobjF : Nat → Nat → List Nat) (flags : Nat → FileFlags)
    (nproc nfiles : Nat) : List (TaskKwargs × Dispatch) :=
  processFrom nobjF flags nproc 0 nfiles 0 0

/-- The task list as observed after the job has run.  When `nproc > 1` the
dispatcher drains `done_queue` in completion order (process.py lines
436-440), but that loop only logs: the tasks and their kwargs were fixed at
submission, so `completionOrder` does not enter the computation. -/
def tasksAfterRun (nobjF : Nat → Nat → List Nat) (flags : Nat → FileFlags)
    (nproc nfiles : Nat) (completionOrder : List Nat) : List TaskKwargs :=
  (ProcessTasks nobjF flags nproc nfiles).map Prod.fst

/-- Closed form for the starting image number of file `n`: the accumulated
`image_num` after files `0..n-1` have been visited. -/
def imageStartF (nobjF : Nat → Nat → List Nat) : Nat → Nat
  | 0 => 0
  | n + 1 => imageStartF nobjF n + (nobjF n (imageStartF nobjF n)).length

/-- Closed form for the starting object number of file `n`. -/
def objStartF (nobjF : Nat → Nat → List Nat) : Nat → Nat
  | 0 => 0
  | n + 1 => objStartF nobjF n + (nobjF n (imageStartF nobjF n)).sum

/-- The per-image object counts of file `n` along the run. -/
def nobjAt (nobjF : Nat → Nat → List Nat) (n : Nat) : List Nat :=
  nobjF n (imageStartF nobjF n)

/-! ## `CopyConfig` (process.py, lines 56-70)

```
config1 = copy.copy(config)
if 'gal' in config: config1['gal'] = copy.deepcopy(config['gal'])
if 'psf' in config: config1['psf'] = copy.deepcopy(config['psf'])
if 'pix' in config: config1['pix'] = copy.deepcopy(config['pix'])
if 'image' in config: config1['image'] = copy.deepcopy(config['image'])
return config1
```

`copy.copy` duplicates only the top-level dict, so every branch keeps its
Python object identity unless the four lines above replace it with a deep
copy.  We model object identity with an explicit heap: a branch is a
reference (an address), the heap maps addresses to branch contents (coded
as `Nat`), `copy.deepcopy` allocates a fresh address holding the same
contents, and a Python mutation of a branch is a heap write at its
address. -/

/-- A reference to a mutable Python object (a config sub-dict). -/
structure PyRef where
  addr : Nat
deriving DecidableEq, Repr

/-- The five semantically special branches of a config dict that the spec
discusses.  A branch is `none` when the key is absent. -/
structure ConfigDict where
  gal : Option PyRef
  psf : Option PyRef
  pix : Option PyRef
  image : Option PyRef
  output : Option PyRef
deriving DecidableEq, Repr

/-- Heap write: mutate the object at address `a` to contents `v`. -/
def writeHeap (h : Nat → Nat) (a v : Nat) : Nat → Nat :=
  fun x => if x = a then v else h x

/-- `copy.deepcopy` on an optional branch: allocate a fresh address `nxt`
holding the same contents; absent branches are untouched. -/
def deepcopyField (r : Option PyRef) (h : Nat → Nat) (nxt : Nat) :
    Option PyRef × (Nat → Nat) × Nat :=
  match r with
  | none => (none, h, nxt)
  | some p => (some ⟨nxt⟩, writeHeap h nxt (h p.addr), nxt + 1)

/-- `CopyConfig(config)`: shallow-copy the top level, then deep-copy the
`gal`, `psf`, `pix` and `image` branches (process.py lines 65-69).  `nxt`
is the next free heap address.  Note that the `output` branch is *not*
deep-copied: the copy shares the caller's `output` reference. -/
def CopyConfig (c : ConfigDict) (h : Nat → Nat) (nxt : Nat) :
    ConfigDict × (Nat → Nat) × Nat :=
  let rg := deepcopyField c.gal h nxt
  let rp := deepcopyField c.psf rg.2.1 rg.2.2
  let rx := deepcopyField c.pix rp.2.1 rp.2.2
  let ri := deepcopyField c.image rx.2.1 rx.2.2
  ({ c with gal := rg.1, psf := rp.1, pix := rx.1, image := ri.1 },
   ri.2.1, ri.2.2)

/-- All heap addresses referenced by a config dict. -/
def ConfigDict.addrs (c : ConfigDict) : List Nat :=
  (c.gal.map PyRef.addr).toList ++ (c.psf.map PyRef.addr).toList ++
  (c.pix.map PyRef.addr).toList ++ (c.image.map PyRef.addr).toList ++
  (c.output.map PyRef.addr).toList

/-! ## The extra-layer (`psf`/`weight`/`badpix`) handling of `Process`
(process.py, lines 288-291 and 360-407)

```
extra_keys = [ 'psf', 'weight', 'badpix' ]
last_file_name = {}
for key in extra_keys:
    last_file_name[key] = None
...
for file_num in range(nfiles):
    ...
    for extra_key in [ key for key in extra_keys if key in output ]:
        ...
        if 'file_name' in params:
            f = params['file_name']
            ...
            if last_file_name[key] == f:
                continue
            kwargs[ extra_key+'_file_name' ] = f
            last_file_name[key] = f
        elif 'hdu' in params:
            kwargs[ extra_key+'_hdu' ] = params['hdu']
```

This is Python 2, so both the init loop's `key` and the list
comprehension's `key` leak into the enclosing scope.  The comprehension
at line 360 iterates over all of `extra_keys`, so after it runs (and
therefore everywhere in the body of the `extra_key` loop) `key` is the
*last* element of `extra_keys`, i.e. `'badpix'` — not `extra_key`.  The
skip test and the update at lines 400-405 consequently always read and
write the single entry `last_file_name['badpix']`, whichever layer is
being handled. -/

/-- `extra_keys` (process.py line 288). -/
def extraKeys : List String := ["psf", "weight", "badpix"]

/-- The value the leaked loop variable `key` holds inside the body of the
`for extra_key in [...]` loop: the last element of `extra_keys`. -/
def leakedKey : String := extraKeys.getLast (by simp [extraKeys])

/-- The parsed params of one `output.psf` / `output.weight` /
`output.badpix` field for one file: a destination file name (already
joined with `dir`) and/or an extension number.  For the `Fits` output
type exactly one of the two is present (`single` parameter group). -/
structure ExtraRequest where
  file_name : Option String
  hdu : Option Int
deriving DecidableEq, Repr

/-- Which of the three extra keys appear in `output` for a given file,
with their parsed params. -/
structure FileExtraCfg where
  psf : Option ExtraRequest
  weight : Option ExtraRequest
  badpix : Option ExtraRequest
deriving DecidableEq, Repr

/-- The `last_file_name` dict: one entry per extra key. -/
structure LastNames where
  psf : Option String
  weight : Option String
  badpix : Option String
deriving DecidableEq, Repr

def LastNames.get (s : LastNames) (k : String) : Option String :=
  if k = "psf" then s.psf
  else if k = "weight" then s.weight
  else if k = "badpix" then s.badpix
  else none

def LastNames.set (s : LastNames) (k : String) (v : Option String) :
    LastNames :=
  if k = "psf" then { s with psf := v }
  else if k = "weight" then { s with weight := v }
  else if k = "badpix" then { s with badpix := v }
  else s

/-- The extra-output entries added to a task's kwargs
(`psf_file_name`, `psf_hdu`, ...). -/
structure ExtraKwargs where
  psf_file_name : Option String := none
  weight_file_name : Option String := none
  badpix_file_name : Option String := none
  psf_hdu : Option Int := none
  weight_hdu : Option Int := none
  badpix_hdu : Option Int := none
deriving DecidableEq, Repr

def ExtraKwargs.setFile (kw : ExtraKwargs) (k : String) (f : String) :
    ExtraKwargs :=
  if k = "psf" then { kw with psf_file_name := some f }
  else if k = "weight" then { kw with weight_file_name := some f }
  else if k = "badpix" then { kw with badpix_file_name := some f }
  else kw

def ExtraKwargs.setHdu (kw : ExtraKwargs) (k : String) (n : Int) :
    ExtraKwargs :=
  if k = "psf" then { kw with psf_hdu := some n }
  else if k = "weight" then { kw with weight_hdu := some n }
  else if k = "badpix" then { kw with badpix_hdu := some n }
  else kw

/-- One iteration of the `for extra_key in [...]` loop body (process.py
lines 382-407) for a present `extra_key`.  `keyVar` is the leaked
variable `key` used by lines 400 and 405. -/
def processExtraKey (keyVar extra_key : String) (req : ExtraRequest)
    (st : LastNames × ExtraKwargs) : LastNames × ExtraKwargs :=
  match req.file_name with
  | some f =>
    -- if last_file_name[key] == f: continue
    if st.1.get keyVar = some f then st
    else (st.1.set keyVar (some f), st.2.setFile extra_key f)
  | none =>
    match req.hdu with
    | some n => (st.1, st.2.setHdu extra_key n)
    | none => st

/-- Skip the loop iteration when the extra key is absent from `output`. -/
def stepExtraKey (keyVar extra_key : String) (req : Option ExtraRequest)
    (st : LastNames × ExtraKwargs) : LastNames × ExtraKwargs :=
  match req with
  | none => st
  | some r => processExtraKey keyVar extra_key r st

/-- The whole extras loop for one file: iterate `extra_key` over the
present keys in the order `psf`, `weight`, `badpix`, with the leaked
`key` fixed at `'badpix'`. -/
def processFileExtras (cfg : FileExtraCfg) (last : LastNames) :
    LastNames × ExtraKwargs :=
  let st0 : LastNames × ExtraKwargs := (last, {})
  let st1 := stepExtraKey leakedKey "psf" cfg.psf st0
  let st2 := stepExtraKey leakedKey "weight" cfg.weight st1
  stepExtraKey leakedKey "badpix" cfg.badpix st2

/-- The extras handling across the file loop of `Process`: thread
`last_file_name` (initialized to all-`None`, lines 289-291) through the
files in file-number order and collect each file's extra kwargs.
(Files skipped by `skip`/`noclobber` leave the loop before reaching the
extras code; this model covers runs where no file is skipped.) -/
def processExtrasFrom (reqs : Nat → FileExtraCfg) :
    Nat → Nat → LastNames → List ExtraKwargs
  | _, 0, _ => []
  | fn, remaining + 1, last =>
    let r := processFileExtras (reqs fn) last
    r.2 :: processExtrasFrom reqs (fn + 1) remaining r.1

def ProcessExtras (reqs : Nat → FileExtraCfg) (nfiles : Nat) :
    List ExtraKwargs :=
  processExtrasFrom reqs 0 nfiles ⟨none, none, none⟩

/-- Number of write calls issued to path `p` over the job: each build
task writes its psf/weight/badpix image to the corresponding
`*_file_name` when that kwarg was assigned (process.py lines 534-547). -/
def writeCallsTo (kws : List ExtraKwargs) (p : String) : Nat :=
  kws.foldl
    (fun acc kw =>
      acc + (if kw.psf_file_name = some p then 1 else 0)
          + (if kw.weight_file_name = some p then 1 else 0)
          + (if kw.badpix_file_name = some p then 1 else 0)) 0

/-! ## `BuildFits` extension-layout validation (process.py, lines 475-511)

The hdu-number handling for the psf/weight/badpix layers:

```
hdus = {}
hdus[0] = 0
if psf_file_name or psf_hdu:
    make_psf_image = True
    if psf_hdu:
        if psf_hdu <= 0 or psf_hdu in hdus.keys():
            raise ValueError(...)
        hdus[psf_hdu] = 1
else:
    make_psf_image = False
(... same for weight -> 2 and badpix -> 3 ...)
for h in range(len(hdus.keys())):
    if h not in hdus.keys():
        raise ValueError("Image for hdu %d not found.  Cannot skip hdus."%h)
```

Python truthiness matters here: `if psf_hdu:` is False both for `None`
and for `0`, so a requested hdu of 0 bypasses the `psf_hdu <= 0` check
entirely and the request is silently dropped. -/

inductive BuildFitsError where
  /-- line 486.  (The source formats the message with the misspelled name
  `pdf_hdu`, so CPython actually raises `NameError` here, but it raises.) -/
  | psfHduInvalid
  /-- line 495.  (`&` instead of `%`: CPython raises `TypeError` at
  format time, but it raises.) -/
  | weightHduInvalid
  /-- line 504, same `&` typo. -/
  | badpixHduInvalid
  /-- line 511: the assigned extension numbers are not contiguous from 0. -/
  | cannotSkipHdu (h : Nat)
deriving DecidableEq, Repr

/-- Python truthiness of an optional int (`None` and `0` are falsy). -/
def truthyInt : Option Int → Bool
  | none => false
  | some n => n != 0

/-- Python truthiness of an optional string (`None` and `''` are falsy). -/
def truthyStr : Option String → Bool
  | none => false
  | some s => s != ""

/-- The `if psf_hdu: if psf_hdu <= 0 or psf_hdu in hdus.keys(): raise;
hdus[psf_hdu] = img` block, shared by the three layers. -/
def addExtraHdu (hdus : List (Int × Nat)) (hduOpt : Option Int) (img : Nat)
    (e : BuildFitsError) : Except BuildFitsError (List (Int × Nat)) :=
  match hduOpt with
  | none => .ok hdus
  | some n =>
    if n = 0 then .ok hdus          -- `if psf_hdu:` is false for 0
    else if n ≤ 0 ∨ hdus.any (fun q => q.1 = n) then .error e
    else .ok (hdus ++ [(n, img)])

/-- `for h in range(len(hdus.keys())): if h not in hdus.keys(): raise`. -/
def checkFromList (hdus : List (Int × Nat)) :
    List Nat → Except BuildFitsError Unit
  | [] => .ok ()
  | h :: rest =>
    if hdus.any (fun q => q.1 = (h : Int)) then checkFromList hdus rest
    else .error (.cannotSkipHdu h)

/-- The layout-validation part of `BuildFits`: returns the hdu → layer
assignment (`0` = main image, `1` = psf, `2` = weight, `3` = badpix) and
the three `make_*_image` flags, or the first raised error. -/
def BuildFitsLayout (psfFile : Option String) (psfHdu : Option Int)
    (weightFile : Option String) (weightHdu : Option Int)
    (badpixFile : Option String) (badpixHdu : Option Int) :
    Except BuildFitsError (List (Int × Nat) × Bool × Bool × Bool) := do
  let hdus0 : List (Int × Nat) := [(0, 0)]
  let makePsf := truthyStr psfFile || truthyInt psfHdu
  let hdus1 ← addExtraHdu hdus0 psfHdu 1 .psfHduInvalid
  let makeWeight := truthyStr weightFile || truthyInt weightHdu
  let hdus2 ← addExtraHdu hdus1 weightHdu 2 .weightHduInvalid
  let makeBadpix := truthyStr badpixFile || truthyInt badpixHdu
  let hdus3 ← addExtraHdu hdus2 badpixHdu 3 .badpixHduInvalid
  let _ ← checkFromList hdus3 (List.range hdus3.length)
  return (hdus3, makePsf, makeWeight, makeBadpix)

/-! ## `ProcessInput` (input.py, lines 37-203)

The per-slot cache lives in `config['input_objs'][key]` (the objects) and
`config['input_objs'][key+'_safe']` (the safety flags, which can be
`None`, `False` or `True`).  For each slot the loop body (lines 138-199)
is:

```
if input_objs[i] is not None and input_objs_safe[i]:
    # use the object already read in
else:
    try:
        kwargs, safe = loader.getKwargs(field, config, logger)
    except KeyboardInterrupt:
        raise
    except:
        if safe_only:
            input_objs[i] = None
            input_objs_safe[i] = None
            continue
        raise
    if safe_only and not safe:
        input_objs[i] = None
        input_objs_safe[i] = None
        continue
    if use_manager:
        input_obj = getattr(config['input_manager'],tag)(**kwargs)
    else:
        input_obj = loader.init_func(**kwargs)
    input_objs[i] = input_obj
    input_objs_safe[i] = safe
    for value_type in loader.types:
        galsim.config.RemoveCurrent(config, type=value_type)
```

Both construction paths (through the manager's registered tag or via a
direct `loader.init_func` call) invoke the loader's constructor exactly
once, which is what the `constructions` counter below records. -/

/-- A Python exception escaping `loader.getKwargs`. -/
inductive PyExc where
  | keyboardInterrupt
  | err (msg : String)
deriving DecidableEq, Repr

/-- A memoized scalar value held by the value evaluator
(`config['seq_index']`-style "current" values), tagged with the value
type that produced it. -/
structure CachedValue where
  name : String
  valueType : String
deriving DecidableEq, Repr

/-- Modelled from the spec: `galsim.config.RemoveCurrent(config,
type=value_type)` lives in galsim/config/value.py, which is not among the
sources at hand.  Per the spec ("whenever an input slot is (re)built,
every previously memoized scalar value that was derived from that input
type must be dropped — enforced by notifying the value-evaluator
collaborator with the affected type names"), it drops every memoized
scalar value registered under the given value type and keeps all
others. -/
def RemoveCurrent (cache : List CachedValue) (t : String) : List CachedValue :=
  cache.filter (fun cv => cv.valueType ≠ t)

/-- An input loader as registered with `RegisterInputType` (input.py,
class `InputLoader`, lines 299-383).  `init_func` is the constructor
(modelled as a function from resolved kwargs to the constructed object,
both coded as `Nat`); `getKwargs` resolves a slot's field config to the
construction kwargs and the safety flag, or raises. -/
structure InputLoader where
  init_func : Nat → Nat
  types : List String
  has_nobj : Bool
  file_scope : Bool
  getKwargs : Nat → Except PyExc (Nat × Bool)

/-- One slot of `config['input_objs']`: the cached object (`None` when
unbuilt) and the safety flag (`None`, `False` or `True`). -/
structure SlotState where
  obj : Option Nat
  safe : Option Bool
deriving DecidableEq, Repr

/-- Python truthiness of the safety flag (`None` and `False` falsy). -/
def truthySafe : Option Bool → Bool
  | some true => true
  | _ => false

/-- The test at line 145: `input_objs[i] is not None and
input_objs_safe[i]`. -/
def builtSafe (st : SlotState) : Bool :=
  st.obj.isSome && truthySafe st.safe

/-- Result of processing one slot: the new slot state, the surviving
memoized values, and how many times a loader constructor was invoked. -/
structure SlotResult where
  state : SlotState
  cache : List CachedValue
  constructions : Nat
deriving DecidableEq, Repr

/-- The body of the slot loop of `ProcessInput` (input.py lines 138-199)
for one slot with field config `field`. -/
def processInputSlot (loader : InputLoader) (safe_only : Bool) (field : Nat)
    (st : SlotState) (cache : List CachedValue) : Except PyExc SlotResult :=
  if builtSafe st then
    -- line 145-147: use the object already read in
    .ok ⟨st, cache, 0⟩
  else
    match loader.getKwargs field with
    | .error PyExc.keyboardInterrupt =>
      -- lines 153-154: KeyboardInterrupt is always re-raised
      .error PyExc.keyboardInterrupt
    | .error e =>
      if safe_only then
        -- lines 160-163: record the slot as unbuilt/unsafe and continue
        .ok ⟨⟨none, none⟩, cache, 0⟩
      else
        -- line 164: outside the pre-pass the failure propagates
        .error e
    | .ok (kwargs, safe) =>
      if safe_only && !safe then
        -- lines 166-171: skip unsafe slots in the safe_only run
        .ok ⟨⟨none, none⟩, cache, 0⟩
      else
        -- lines 175-179: construct (once), store, then lines 192-199:
        -- invalidate the memoized values of the loader's declared types
        let obj := loader.init_func kwargs
        .ok ⟨⟨some obj, some safe⟩, loader.types.foldl RemoveCurrent cache, 1⟩

/-- The slot loop over all slots of one input key (the `for i in
range(len(fields))` loop, input.py line 138), threading the memoized
value store and accumulating the construction count.  An escaping
exception aborts the loop and propagates. -/
def processInputSlots (loader : InputLoader) (safe_only : Bool) :
    List (Nat × SlotState) → List CachedValue →
    Except PyExc (List SlotState × List CachedValue × Nat)
  | [], cache => .ok ([], cache, 0)
  | (field, st) :: rest, cache =>
    match processInputSlot loader safe_only field st cache with
    | .error e => .error e
    | .ok r =>
      match processInputSlots loader safe_only rest r.cache with
      | .error e => .error e
      | .ok (sts, cache', n) => .ok (r.state :: sts, cache', r.constructions + n)

/-- Repeated calls of `ProcessInput` visiting the same slot (one call per
new file), accumulating the construction counter. -/
def repeatProcessSlot (loader : InputLoader) (safe_only : Bool) (field : Nat) :
    Nat → SlotState → List CachedValue → Except PyExc SlotResult
  | 0, st, cache => .ok ⟨st, cache, 0⟩
  | k + 1, st, cache =>
    match processInputSlot loader safe_only field st cache with
    | .error e => .error e
    | .ok r =>
      match repeatProcessSlot loader safe_only field k r.state r.cache with
      | .error e => .error e
      | .ok r' => .ok ⟨r'.state, r'.cache, r.constructions + r'.constructions⟩

/-! ### The input manager (input.py, lines 91-117)

```
use_manager = (
        'current_nproc' not in config and
        not file_scope_only and
        ( ('image' in config and 'nproc' in config['image'] and
           galsim.config.ParseValue(config['image'], 'nproc', config, int)[0] != 1) or
          ('output' in config and 'nproc' in config['output'] and
           galsim.config.ParseValue(config['output'], 'nproc', config, int)[0] != 1) ) )

if use_manager and 'input_manager' not in config:
    from multiprocessing.managers import BaseManager
    class InputManager(BaseManager): pass
    for key in all_keys:
        ...
        InputManager.register(tag, valid_input_types[key].init_func)
    config['input_manager'] = InputManager()
    config['input_manager'].start()
```

The `start()` call is not wrapped in any exception handler. -/

/-- The parts of the config that determine the manager setup. -/
structure PIConfig where
  /-- `config['current_nproc']`: present when already inside a worker. -/
  currentNproc : Option Nat
  /-- `config['image']['nproc']` when present. -/
  imageNproc : Option Int
  /-- `config['output']['nproc']` when present. -/
  outputNproc : Option Int
  /-- `'input_manager' in config`. -/
  hasInputManager : Bool
deriving DecidableEq, Repr

/-- The `use_manager` condition (input.py lines 94-100). -/
def useManager (c : PIConfig) (file_scope_only : Bool) : Bool :=
  c.currentNproc.isNone && !file_scope_only &&
    ((match c.imageNproc with | some n => n != 1 | none => false) ||
     (match c.outputNproc with | some n => n != 1 | none => false))

inductive ManagerError where
  | startupFailure
deriving DecidableEq, Repr

/-- Lines 102-117: when a manager is wanted and not yet present, register
every slot's constructor under a fresh tag, construct the manager and
`start()` it.  `startFails` models whether `start()` raises (e.g. the
manager process cannot be spawned); the source has no handler around the
call, so a failure escapes.  Returns whether `config` holds a manager
afterwards. -/
def setupInputManager (c : PIConfig) (file_scope_only startFails : Bool) :
    Except ManagerError Bool :=
  if useManager c file_scope_only && !c.hasInputManager then
    if startFails then .error ManagerError.startupFailure
    else .ok true
  else .ok c.hasInputManager

/-- `ProcessInput` restricted to one input key: manager setup (lines
91-117) followed by the slot loop (lines 128-199).  The
`file_scope_only` skip at line 132 leaves the slots untouched. -/
def ProcessInput (c : PIConfig) (file_scope_only safe_only startFails : Bool)
    (loader : InputLoader) (slots : List (Nat × SlotState))
    (cache : List CachedValue) :
    Except (ManagerError ⊕ PyExc) (List SlotState × List CachedValue × Nat) :=
  match setupInputManager c file_scope_only startFails with
  | .error e => .error (Sum.inl e)
  | .ok _ =>
    if file_scope_only && !loader.file_scope then
      .ok (slots.map Prod.snd, cache, 0)
    else
      match processInputSlots loader safe_only slots cache with
      | .error e => .error (Sum.inr e)
      | .ok r => .ok r

/-! ## `ProcessInputNObjects` (input.py, lines 206-248)

```
for key in valid_input_types:
    loader = valid_input_types[key]
    if key in config['input'] and loader.has_nobj:
        ...
        return input_obj.getNObjects()
return None
```

The registry `valid_input_types` is iterated in registration order; the
first configured count-capable key wins and every later one is never
looked at.  `nobjects` below models `input_obj.getNObjects()` for the
key's input object, whether taken from the Built-Safe cache (line 235)
or freshly constructed with `_nobjects_only=True` (lines 240-242). -/

/-- What `ProcessInputNObjects` needs to know about one registered input
type. -/
structure NObjInput where
  has_nobj : Bool
  nobjects : Nat
deriving DecidableEq, Repr

def processInputNObjectsAux (inputKeys : List String) :
    List (String × NObjInput) → Option Nat
  | [] => none
  | (k, l) :: rest =>
    if k ∈ inputKeys ∧ l.has_nobj then some l.nobjects
    else processInputNObjectsAux inputKeys rest

/-- `ProcessInputNObjects(config)`: `hasInput` is `'input' in config`;
`inputKeys` are the keys of `config['input']`; `registry` is
`valid_input_types` in registration order. -/
def ProcessInputNObjects (registry : List (String × NObjInput))
    (hasInput : Bool) (inputKeys : List String) : Option Nat :=
  if hasInput then processInputNObjectsAux inputKeys registry
  else none

/-! ## Concrete instances used by counterexamples and witnesses -/

/-- A flag assignment under which no file is ever skipped. -/
def noSkipFlags : Nat → FileFlags := fun _ => ⟨false, false⟩

/-- The end-to-end scenario of the spec: every file holds one image of 10
objects (a `Fits`-type file sized from a count-capable catalog). -/
def tenObjF : Nat → Nat → List Nat := fun _ _ => [10]

/-- A concrete job config for `CopyConfig`: all five special branches
present, at heap addresses 0-4. -/
def cEx : ConfigDict :=
  ⟨some ⟨0⟩, some ⟨1⟩, some ⟨2⟩, some ⟨3⟩, some ⟨4⟩⟩

/-- A concrete heap for `cEx`: address `a` holds contents `100 + a`. -/
def hEx : Nat → Nat := fun a => 100 + a

/-- A loader whose kwargs resolution raises `KeyboardInterrupt` (the user
hits Ctrl-C while the pre-pass is resolving the slot). -/
def kbLoader : InputLoader :=
  ⟨fun k => k, [], false, false, fun _ => .error PyExc.keyboardInterrupt⟩

/-- A loader whose kwargs resolution raises an ordinary exception (e.g.
it needs an rng that does not exist yet). -/
def errLoader : InputLoader :=
  ⟨fun k => k, [], false, false, fun _ => .error (PyExc.err "no rng yet")⟩

/-- A loader that resolves successfully and safely (like a `dict` input
with a literal file name). -/
def idLoader : InputLoader :=
  ⟨fun k => k + 7, ["Catalog"], true, false, fun _ => .ok (3, true)⟩

/-- A loader that resolves successfully but reports `safe = False`;
values cached under its declared type `Catalog` get invalidated whenever
it rebuilds. -/
def catLoader : InputLoader :=
  ⟨fun k => k + 1, ["Catalog"], true, false, fun _ => .ok (2, false)⟩

/-- A config that wants the input manager: not inside a worker, no
manager yet, `output.nproc = 2`. -/
def mgrConfig : PIConfig := ⟨none, none, some 2, false⟩

/-! ## Helper lemmas -/

lemma processFrom_mem_kwargs (nobjF : Nat → Nat → List Nat)
    (flags : Nat → FileFlags) (nproc : Nat) :
    ∀ (remaining fn : Nat) (kw : TaskKwargs) (d : Dispatch),
      (kw, d) ∈ processFrom nobjF flags nproc fn remaining
          (imageStartF nobjF fn) (objStartF nobjF fn) →
      kw.image_num = imageStartF nobjF kw.file_num ∧
      kw.obj_num = objStartF nobjF kw.file_num := by
  intro remaining
  induction remaining with
  | zero => intro fn kw d h; simp [processFrom] at h
  | succ r ih =>
    intro fn kw d h
    rw [processFrom] at h
    have hstep :
        processFrom nobjF flags nproc (fn + 1) r
            (imageStartF nobjF fn + (nobjF fn (imageStartF nobjF fn)).length)
            (objStartF nobjF fn + (nobjF fn (imageStartF nobjF fn)).sum)
          = processFrom nobjF flags nproc (fn + 1) r
              (imageStartF nobjF (fn + 1)) (objStartF nobjF (fn + 1)) := rfl
    by_cases hs : (flags fn).skip = true
    · rw [if_pos hs, hstep] at h
      exact ih (fn + 1) kw d h
    · rw [if_neg hs] at h
      by_cases hn : (flags fn).noclobberHit = true
      · rw [if_pos hn, hstep] at h
        exact ih (fn + 1) kw d h
      · rw [if_neg hn, hstep] at h
        rcases List.mem_cons.mp h with h | h
        · have hk : kw = ⟨fn, imageStartF nobjF fn, objStartF nobjF fn⟩ :=
            congrArg Prod.fst h
          subst hk
          exact ⟨rfl, rfl⟩
        · exact ih (fn + 1) kw d h

lemma imageStartF_eq_sum (nobjF : Nat → Nat → List Nat) (n : Nat) :
    imageStartF nobjF n = ∑ k ∈ Finset.range n, (nobjAt nobjF k).length := by
  induction n with
  | zero => simp [imageStartF]
  | succ m ih => rw [imageStartF, Finset.sum_range_succ, nobjAt, ih]

lemma objStartF_eq_sum (nobjF : Nat → Nat → List Nat) (n : Nat) :
    objStartF nobjF n = ∑ k ∈ Finset.range n, (nobjAt nobjF k).sum := by
  induction n with
  | zero => simp [objStartF]
  | succ m ih =>
    rw [objStartF, Finset.sum_range_succ, nobjAt, ih]

lemma processFrom_nproc_indep (nobjF : Nat → Nat → List Nat)
    (flags : Nat → FileFlags) (nproc nproc' : Nat) :
    ∀ (remaining fn im ob : Nat),
      (processFrom nobjF flags nproc fn remaining im ob).map Prod.fst =
      (processFrom nobjF flags nproc' fn remaining im ob).map Prod.fst := by
  intro remaining
  induction remaining with
  | zero => intro fn im ob; rfl
  | succ r ih =>
    intro fn im ob
    rw [processFrom, processFrom]
    by_cases hs : (flags fn).skip = true
    · rw [if_pos hs, if_pos hs]; exact ih _ _ _
    · rw [if_neg hs, if_neg hs]
      by_cases hn : (flags fn).noclobberHit = true
      · rw [if_pos hn, if_pos hn]; exact ih _ _ _
      · rw [if_neg hn, if_neg hn, List.map_cons, List.map_cons,
            ih (fn + 1) (im + (nobjF fn im).length) (ob + (nobjF fn im).sum)]

lemma deepcopyField_next_le (r : Option PyRef) (h : Nat → Nat) (nxt : Nat) :
    nxt ≤ (deepcopyField r h nxt).2.2 := by
  cases r with
  | none => exact le_refl _
  | some p => exact Nat.le_succ _

lemma deepcopyField_low (r : Option PyRef) (h : Nat → Nat) (nxt a : Nat)
    (ha : a < nxt) : (deepcopyField r h nxt).2.1 a = h a := by
  cases r with
  | none => rfl
  | some p =>
    show writeHeap h nxt (h p.addr) a = h a
    unfold writeHeap
    rw [if_neg (Nat.ne_of_lt ha)]

lemma deepcopyField_fresh (r : Option PyRef) (h : Nat → Nat) (nxt : Nat)
    (p : PyRef) (hp : r = some p) :
    ∃ q : PyRef, (deepcopyField r h nxt).1 = some q ∧
      nxt ≤ q.addr ∧ q.addr < (deepcopyField r h nxt).2.2 ∧
      (deepcopyField r h nxt).2.1 q.addr = h p.addr := by
  subst hp
  refine ⟨⟨nxt⟩, rfl, le_refl _, Nat.lt_succ_self _, ?_⟩
  show writeHeap h nxt (h p.addr) nxt = h p.addr
  unfold writeHeap
  rw [if_pos rfl]

lemma addrs_gal (c : ConfigDict) (p : PyRef) (hp : c.gal = some p) :
    p.addr ∈ c.addrs := by
  simp [ConfigDict.addrs, hp]

lemma addrs_psf (c : ConfigDict) (p : PyRef) (hp : c.psf = some p) :
    p.addr ∈ c.addrs := by
  simp [ConfigDict.addrs, hp]

lemma addrs_pix (c : ConfigDict) (p : PyRef) (hp : c.pix = some p) :
    p.addr ∈ c.addrs := by
  simp [ConfigDict.addrs, hp]

lemma addrs_image (c : ConfigDict) (p : PyRef) (hp : c.image = some p) :
    p.addr ∈ c.addrs := by
  simp [ConfigDict.addrs, hp]

lemma addrs_output (c : ConfigDict) (p : PyRef) (hp : c.output = some p) :
    p.addr ∈ c.addrs := by
  simp [ConfigDict.addrs, hp]

/-- The heap and allocation pointer produced by the four sequential
deep copies inside `CopyConfig`, when every address referenced by the
original config lives below the allocation pointer `nxt`: reads below
`nxt` are unchanged, the pointer never decreases, each present branch
among `gal`, `psf`, `pix`, `image` gets a fresh reference (address ≥
`nxt`) to equal contents, and the `output` branch is returned unchanged.
-/
lemma CopyConfig_spec (c : ConfigDict) (h : Nat → Nat) (nxt : Nat)
    (hc : ∀ a ∈ c.addrs, a < nxt) :
    (CopyConfig c h nxt).1.output = c.output ∧
    nxt ≤ (CopyConfig c h nxt).2.2 ∧
    (∀ a, a < nxt → (CopyConfig c h nxt).2.1 a = h a) ∧
    (∀ p : PyRef, c.gal = some p → ∃ q : PyRef,
      (CopyConfig c h nxt).1.gal = some q ∧ nxt ≤ q.addr ∧
      q.addr < (CopyConfig c h nxt).2.2 ∧
      (CopyConfig c h nxt).2.1 q.addr = h p.addr) ∧
    (∀ p : PyRef, c.psf = some p → ∃ q : PyRef,
      (CopyConfig c h nxt).1.psf = some q ∧ nxt ≤ q.addr ∧
      q.addr < (CopyConfig c h nxt).2.2 ∧
      (CopyConfig c h nxt).2.1 q.addr = h p.addr) ∧
    (∀ p : PyRef, c.pix = some p → ∃ q : PyRef,
      (CopyConfig c h nxt).1.pix = some q ∧ nxt ≤ q.addr ∧
      q.addr < (CopyConfig c h nxt).2.2 ∧
      (CopyConfig c h nxt).2.1 q.addr = h p.addr) ∧
    (∀ p : PyRef, c.image = some p → ∃ q : PyRef,
      (CopyConfig c h nxt).1.image = some q ∧ nxt ≤ q.addr ∧
      q.addr < (CopyConfig c h nxt).2.2 ∧
      (CopyConfig c h nxt).2.1 q.addr = h p.addr) := by
  rcases hg : deepcopyField c.gal h nxt with ⟨g, h1, n1⟩
  rcases hp : deepcopyField c.psf h1 n1 with ⟨p2, h2, n2⟩
  rcases hx : deepcopyField c.pix h2 n2 with ⟨x3, h3, n3⟩
  rcases hi : deepcopyField c.image h3 n3 with ⟨i4, h4, n4⟩
  have eC : CopyConfig c h nxt =
      ({ c with gal := g, psf := p2, pix := x3, image := i4 }, h4, n4) := by
    simp only [CopyConfig, hg, hp, hx, hi]
  have mono1 : nxt ≤ n1 := by
    have := deepcopyField_next_le c.gal h nxt; rw [hg] at this; exact this
  have mono2 : n1 ≤ n2 := by
    have := deepcopyField_next_le c.psf h1 n1; rw [hp] at this; exact this
  have mono3 : n2 ≤ n3 := by
    have := deepcopyField_next_le c.pix h2 n2; rw [hx] at this; exact this
  have mono4 : n3 ≤ n4 := by
    have := deepcopyField_next_le c.image h3 n3; rw [hi] at this; exact this
  have low1 : ∀ a, a < nxt → h1 a = h a := by
    intro a ha
    have := deepcopyField_low c.gal h nxt a ha; rw [hg] at this; exact this
  have low2 : ∀ a, a < n1 → h2 a = h1 a := by
    intro a ha
    have := deepcopyField_low c.psf h1 n1 a ha; rw [hp] at this; exact this
  have low3 : ∀ a, a < n2 → h3 a = h2 a := by
    intro a ha
    have := deepcopyField_low c.pix h2 n2 a ha; rw [hx] at this; exact this
  have low4 : ∀ a, a < n3 → h4 a = h3 a := by
    intro a ha
    have := deepcopyField_low c.image h3 n3 a ha; rw [hi] at this; exact this
  have low : ∀ a, a < nxt → h4 a = h a := by
    intro a ha
    rw [low4 a (lt_of_lt_of_le ha (le_trans mono1 (le_trans mono2 mono3))),
        low3 a (lt_of_lt_of_le ha (le_trans mono1 mono2)),
        low2 a (lt_of_lt_of_le ha mono1), low1 a ha]
  rw [eC]
  refine ⟨rfl, le_trans mono1 (le_trans mono2 (le_trans mono3 mono4)), low,
    ?_, ?_, ?_, ?_⟩
  · intro p hgal
    have hf := deepcopyField_fresh c.gal h nxt p hgal
    rw [hg] at hf
    obtain ⟨q, hq1, hq2, hq3, hq4⟩ := hf
    have hq3' : q.addr < n1 := hq3
    have hq4' : h1 q.addr = h p.addr := hq4
    refine ⟨q, hq1, hq2,
      lt_of_lt_of_le hq3' (le_trans mono2 (le_trans mono3 mono4)), ?_⟩
    show h4 q.addr = h p.addr
    rw [low4 q.addr (lt_of_lt_of_le hq3' (le_trans mono2 mono3)),
        low3 q.addr (lt_of_lt_of_le hq3' mono2), low2 q.addr hq3', hq4']
  · intro p hpsf
    have hf := deepcopyField_fresh c.psf h1 n1 p hpsf
    rw [hp] at hf
    obtain ⟨q, hq1, hq2, hq3, hq4⟩ := hf
    have hq3' : q.addr < n2 := hq3
    have hq4' : h2 q.addr = h1 p.addr := hq4
    refine ⟨q, hq1, le_trans mono1 hq2,
      lt_of_lt_of_le hq3' (le_trans mono3 mono4), ?_⟩
    show h4 q.addr = h p.addr
    rw [low4 q.addr (lt_of_lt_of_le hq3' mono3), low3 q.addr hq3', hq4']
    exact low1 p.addr (hc p.addr (addrs_psf c p hpsf))
  · intro p hpix
    have hf := deepcopyField_fresh c.pix h2 n2 p hpix
    rw [hx] at hf
    obtain ⟨q, hq1, hq2, hq3, hq4⟩ := hf
    have hq3' : q.addr < n3 := hq3
    have hq4' : h3 q.addr = h2 p.addr := hq4
    refine ⟨q, hq1, le_trans mono1 (le_trans mono2 hq2),
      lt_of_lt_of_le hq3' mono4, ?_⟩
    show h4 q.addr = h p.addr
    rw [low4 q.addr hq3', hq4']
    have hplt : p.addr < nxt := hc p.addr (addrs_pix c p hpix)
    rw [low2 p.addr (lt_of_lt_of_le hplt mono1), low1 p.addr hplt]
  · intro p himg
    have hf := deepcopyField_fresh c.image h3 n3 p himg
    rw [hi] at hf
    obtain ⟨q, hq1, hq2, hq3, hq4⟩ := hf
    have hq3' : q.addr < n4 := hq3
    have hq4' : h4 q.addr = h3 p.addr := hq4
    refine ⟨q, hq1, le_trans mono1 (le_trans mono2 (le_trans mono3 hq2)),
      hq3', ?_⟩
    show h4 q.addr = h p.addr
    rw [hq4']
    have hplt : p.addr < nxt := hc p.addr (addrs_image c p himg)
    rw [low3 p.addr (lt_of_lt_of_le hplt (le_trans mono1 mono2)),
        low2 p.addr (lt_of_lt_of_le hplt mono1), low1 p.addr hplt]

/-- Running the file loop with skip/noclobber flags produces exactly the
tasks of the never-skipping run, minus the skipped files: the surviving
tasks carry identical kwargs, because the counters advance (lines
340-341) before the skip checks (lines 343-357). -/
lemma processFrom_skip_filter (nobjF : Nat → Nat → List Nat)
    (flags : Nat → FileFlags) (nproc : Nat) :
    ∀ (remaining fn im ob : Nat),
      processFrom nobjF flags nproc fn remaining im ob =
      (processFrom nobjF noSkipFlags nproc fn remaining im ob).filter
        (fun t => !(flags t.1.file_num).skip &&
                  !(flags t.1.file_num).noclobberHit) := by
  intro remaining
  induction remaining with
  | zero => intro fn im ob; rfl
  | succ r ih =>
    intro fn im ob
    rw [processFrom, processFrom]
    rw [if_neg (show ¬((noSkipFlags fn).skip = true) by simp [noSkipFlags]),
        if_neg (show ¬((noSkipFlags fn).noclobberHit = true) by
          simp [noSkipFlags]),
        List.filter_cons]
    by_cases hs : (flags fn).skip = true
    · rw [if_pos hs,
          if_neg (show ¬((!(flags fn).skip && !(flags fn).noclobberHit)
              = true) by simp [hs])]
      exact ih _ _ _
    · rw [if_neg hs]
      by_cases hn : (flags fn).noclobberHit = true
      · rw [if_pos hn,
            if_neg (show ¬((!(flags fn).skip && !(flags fn).noclobberHit)
                = true) by simp [hn])]
        exact ih _ _ _
      · rw [if_neg hn,
            if_pos (show (!(flags fn).skip && !(flags fn).noclobberHit)
                = true by simp [hs, hn])]
        rw [ih]

/-- A Built-Safe slot is returned unchanged with no construction
(input.py lines 145-147). -/
lemma processInputSlot_builtSafe (loader : InputLoader) (so : Bool)
    (field : Nat) (st : SlotState) (cache : List CachedValue)
    (h : builtSafe st = true) :
    processInputSlot loader so field st cache = .ok ⟨st, cache, 0⟩ := by
  unfold processInputSlot
  rw [if_pos h]

/-- Iterating `ProcessInput` over a Built-Safe slot any number of times
changes nothing and constructs nothing. -/
lemma repeatProcessSlot_builtSafe (loader : InputLoader) (so : Bool)
    (field : Nat) :
    ∀ (k : Nat) (st : SlotState) (cache : List CachedValue),
      builtSafe st = true →
      repeatProcessSlot loader so field k st cache = .ok ⟨st, cache, 0⟩ := by
  intro k
  induction k with
  | zero => intro st cache _; rfl
  | succ m ih =>
    intro st cache h
    rw [repeatProcessSlot, processInputSlot_builtSafe loader so field st cache h]
    dsimp only
    rw [ih st cache h]
    rfl

/-- Membership after folding `RemoveCurrent` over a list of type names:
exactly the values whose type appears in the list are dropped. -/
lemma mem_foldl_RemoveCurrent :
    ∀ (ts : List String) (cache : List CachedValue) (cv : CachedValue),
      cv ∈ ts.foldl RemoveCurrent cache ↔
      (cv ∈ cache ∧ cv.valueType ∉ ts) := by
  intro ts
  induction ts with
  | nil => intro cache cv; simp
  | cons t ts' ih =>
    intro cache cv
    rw [List.foldl_cons, ih (RemoveCurrent cache t) cv]
    simp only [RemoveCurrent, List.mem_filter, List.mem_cons,
      decide_not, Bool.not_eq_true', decide_eq_false_iff_not]
    constructor
    · rintro ⟨⟨hmem, hne⟩, hnot⟩
      exact ⟨hmem, by rintro (h | h); exact hne h; exact hnot h⟩
    · rintro ⟨hmem, hnot⟩
      exact ⟨⟨hmem, fun h => hnot (Or.inl h)⟩, fun h => hnot (Or.inr h)⟩

/-- First configured count-capable entry of the registry wins. -/
lemma processInputNObjectsAux_first (keys : List String) :
    ∀ (pre post : List (String × NObjInput)) (k : String) (l : NObjInput),
      (∀ p ∈ pre, ¬(p.1 ∈ keys ∧ p.2.has_nobj = true)) →
      k ∈ keys → l.has_nobj = true →
      processInputNObjectsAux keys (pre ++ (k, l) :: post) = some l.nobjects := by
  intro pre
  induction pre with
  | nil =>
    intro post k l _ hk hl
    rw [List.nil_append, processInputNObjectsAux, if_pos ⟨hk, hl⟩]
  | cons p pre' ih =>
    intro post k l hpre hk hl
    rw [List.cons_append, processInputNObjectsAux,
        if_neg (hpre p (List.mem_cons_self p pre'))]
    exact ih post k l (fun q hq => hpre q (List.mem_cons_of_mem p hq)) hk hl

/-- With no configured count-capable entry the scan returns `none`. -/
lemma processInputNObjectsAux_none (keys : List String) :
    ∀ (registry : List (String × NObjInput)),
      (∀ p ∈ registry, ¬(p.1 ∈ keys ∧ p.2.has_nobj = true)) →
      processInputNObjectsAux keys registry = none := by
  intro registry
  induction registry with
  | nil => intro _; rfl
  | cons p rest ih =>
    intro h
    rw [processInputNObjectsAux, if_neg (h p (List.mem_cons_self p rest))]
    exact ih (fun q hq => h q (List.mem_cons_of_mem p hq))

/-! ## Claim theorems -/

/-- Claim C1: for every job configuration, the starting image index and
starting object index of the task for file `N` equal the sums of the
per-file image counts and per-file object counts of files `0..N-1`,
accumulated in the dispatch loop before any build task runs; and the
numbering of every file is identical whether the job runs with one
worker process (`nproc = 1`) or with more than one, and independent of
task completion order. -/
theorem numbering_invariant_confirmed :
    (∀ (nobjF : Nat → Nat → List Nat) (flags : Nat → FileFlags)
        (nproc nfiles : Nat) (kw : TaskKwargs) (d : Dispatch),
        (kw, d) ∈ ProcessTasks nobjF flags nproc nfiles →
        kw.image_num =
          ∑ k ∈ Finset.range kw.file_num, (nobjAt nobjF k).length ∧
        kw.obj_num =
          ∑ k ∈ Finset.range kw.file_num, (nobjAt nobjF k).sum) ∧
    (∀ (nobjF : Nat → Nat → List Nat) (flags : Nat → FileFlags)
        (nproc nproc' nfiles : Nat) (ord ord' : List Nat),
        tasksAfterRun nobjF flags nproc nfiles ord =
        tasksAfterRun nobjF flags nproc' nfiles ord') := by
  constructor
  · intro nobjF flags nproc nfiles kw d h
    have h0 : (kw, d) ∈ processFrom nobjF flags nproc 0 nfiles
        (imageStartF nobjF 0) (objStartF nobjF 0) := h
    have hmem := processFrom_mem_kwargs nobjF flags nproc nfiles 0 kw d h0
    rw [imageStartF_eq_sum, objStartF_eq_sum] at hmem
    exact hmem
  · intro nobjF flags nproc nproc' nfiles ord ord'
    show (processFrom nobjF flags nproc 0 nfiles 0 0).map Prod.fst =
         (processFrom nobjF flags nproc' 0 nfiles 0 0).map Prod.fst
    exact processFrom_nproc_indep nobjF flags nproc nproc' nfiles 0 0 0

/-- Witness for C1: the spec's end-to-end scenario — 3 output files, each
one image with 10 objects from a count-capable catalog, 2 workers.  File
2's task carries `image_num = 2` and `obj_num = 20`, i.e. objects
20..29. -/
theorem numbering_invariant_confirmed_witness :
    ((⟨2, 2, 20⟩, Dispatch.toQueue) ∈ ProcessTasks tenObjF noSkipFlags 2 3) ∧
    ((2 : Nat) = ∑ k ∈ Finset.range 2, (nobjAt tenObjF k).length ∧
     (20 : Nat) = ∑ k ∈ Finset.range 2, (nobjAt tenObjF k).sum) :=
  ⟨by decide,
   numbering_invariant_confirmed.1 tenObjF noSkipFlags 2 3 ⟨2, 2, 20⟩
     Dispatch.toQueue (by decide)⟩

/-- Claim C10: an output file that is skipped (`output.skip` true, or
`output.noclobber` with the file already existing) still has its
per-image object counts computed and still advances the running image-
and object-number totals before the skip takes effect: the run with skip
flags equals the never-skipping run with the skipped files' tasks
filtered out, each surviving task carrying identical kwargs. -/
theorem skip_preserves_numbering_confirmed
    (nobjF : Nat → Nat → List Nat) (flags : Nat → FileFlags)
    (nproc nfiles : Nat) :
    ProcessTasks nobjF flags nproc nfiles =
    (ProcessTasks nobjF noSkipFlags nproc nfiles).filter
      (fun t => !(flags t.1.file_num).skip &&
                !(flags t.1.file_num).noclobberHit) :=
  processFrom_skip_filter nobjF flags nproc nfiles 0 0 0

/-- Claim C7 counterexample: `CopyConfig` does *not* deep-copy the
`output` branch.  On a concrete config whose `output` branch lives at
heap address 4 (contents `hEx 4 = 104`), the task copy's `output` is the
very same reference, and a write through the copy's `output` reference
is observed when the job config reads its own `output` branch (the read
returns the written value 999 instead of 104).  This refutes the claim
that the per-task copy contains an independent deep copy of `output`. -/
theorem copyconfig_output_shared_counterexample :
    (CopyConfig cEx hEx 5).1.output = cEx.output ∧
    cEx.output = some ⟨4⟩ ∧
    hEx 4 = 104 ∧
    writeHeap (CopyConfig cEx hEx 5).2.1 4 999 4 = 999 := by
  refine ⟨rfl, rfl, rfl, rfl⟩

/-- Claim C7 amended: the per-task config copy contains independent deep
copies of the `gal`, `psf`, `pix` and `image` branches (each gets a
fresh reference with equal contents, and mutating any freshly allocated
branch leaves every pre-existing object of the job-level config
unchanged), but the `output` branch is shared by reference with the
job-level config. -/
theorem copyconfig_amended (c : ConfigDict) (h : Nat → Nat) (nxt : Nat)
    (hc : ∀ a ∈ c.addrs, a < nxt) :
    (CopyConfig c h nxt).1.output = c.output ∧
    (∀ a, a < nxt → (CopyConfig c h nxt).2.1 a = h a) ∧
    (∀ p : PyRef, c.gal = some p → ∃ q : PyRef,
      (CopyConfig c h nxt).1.gal = some q ∧ nxt ≤ q.addr ∧
      (CopyConfig c h nxt).2.1 q.addr = h p.addr) ∧
    (∀ p : PyRef, c.psf = some p → ∃ q : PyRef,
      (CopyConfig c h nxt).1.psf = some q ∧ nxt ≤ q.addr ∧
      (CopyConfig c h nxt).2.1 q.addr = h p.addr) ∧
    (∀ p : PyRef, c.pix = some p → ∃ q : PyRef,
      (CopyConfig c h nxt).1.pix = some q ∧ nxt ≤ q.addr ∧
      (CopyConfig c h nxt).2.1 q.addr = h p.addr) ∧
    (∀ p : PyRef, c.image = some p → ∃ q : PyRef,
      (CopyConfig c h nxt).1.image = some q ∧ nxt ≤ q.addr ∧
      (CopyConfig c h nxt).2.1 q.addr = h p.addr) ∧
    (∀ b v a, nxt ≤ b → a < nxt →
      writeHeap (CopyConfig c h nxt).2.1 b v a = h a) := by
  obtain ⟨ho, _, hlow, hg, hp, hx, hi⟩ := CopyConfig_spec c h nxt hc
  refine ⟨ho, hlow, ?_, ?_, ?_, ?_, ?_⟩
  · intro p hgal
    obtain ⟨q, h1, h2, _, h4⟩ := hg p hgal
    exact ⟨q, h1, h2, h4⟩
  · intro p hpsf
    obtain ⟨q, h1, h2, _, h4⟩ := hp p hpsf
    exact ⟨q, h1, h2, h4⟩
  · intro p hpix
    obtain ⟨q, h1, h2, _, h4⟩ := hx p hpix
    exact ⟨q, h1, h2, h4⟩
  · intro p himg
    obtain ⟨q, h1, h2, _, h4⟩ := hi p himg
    exact ⟨q, h1, h2, h4⟩
  · intro b v a hb ha
    unfold writeHeap
    rw [if_neg (Nat.ne_of_lt (lt_of_lt_of_le ha hb)), hlow a ha]

/-- Witness for the amended C7 at the concrete config `cEx` (branch
addresses 0-4, next free address 5). -/
theorem copyconfig_amended_witness :
    (∀ a ∈ cEx.addrs, a < 5) ∧
    ((CopyConfig cEx hEx 5).1.output = cEx.output ∧
     (∀ a, a < 5 → (CopyConfig cEx hEx 5).2.1 a = hEx a) ∧
     (∀ p : PyRef, cEx.gal = some p → ∃ q : PyRef,
       (CopyConfig cEx hEx 5).1.gal = some q ∧ 5 ≤ q.addr ∧
       (CopyConfig cEx hEx 5).2.1 q.addr = hEx p.addr) ∧
     (∀ p : PyRef, cEx.psf = some p → ∃ q : PyRef,
       (CopyConfig cEx hEx 5).1.psf = some q ∧ 5 ≤ q.addr ∧
       (CopyConfig cEx hEx 5).2.1 q.addr = hEx p.addr) ∧
     (∀ p : PyRef, cEx.pix = some p → ∃ q : PyRef,
       (CopyConfig cEx hEx 5).1.pix = some q ∧ 5 ≤ q.addr ∧
       (CopyConfig cEx hEx 5).2.1 q.addr = hEx p.addr) ∧
     (∀ p : PyRef, cEx.image = some p → ∃ q : PyRef,
       (CopyConfig cEx hEx 5).1.image = some q ∧ 5 ≤ q.addr ∧
       (CopyConfig cEx hEx 5).2.1 q.addr = hEx p.addr) ∧
     (∀ b v a, 5 ≤ b → a < 5 →
       writeHeap (CopyConfig cEx hEx 5).2.1 b v a = hEx a)) :=
  ⟨by decide, copyconfig_amended cEx hEx 5 (by decide)⟩

/-- Claim C5 (code bug): single-file output assembly accepts the layout
`{1: psf, 2: weight}` and rejects `{1: psf, 3: weight}` (gap at 2), as
the claim states — but a requested extension number of 0 does *not*
fail: `if psf_hdu:` is false for `0` in Python, so a psf extension
request of `0` bypasses the source's own `psf_hdu <= 0` validity check
(which is unreachable for `0`) and is silently dropped, and assembly
succeeds with no psf layer at all, where the claim (and the source's own
dead check) demand an error. -/
theorem buildfits_hdu_zero_silently_ignored :
    BuildFitsLayout none (some 0) none none none none =
      Except.ok ([(0, 0)], false, false, false) ∧
    BuildFitsLayout none (some 1) none (some 2) none none =
      Except.ok ([(0, 0), (1, 1), (2, 2)], true, true, false) ∧
    BuildFitsLayout none (some 1) none (some 3) none none =
      Except.error (BuildFitsError.cannotSkipHdu 2) := by
  refine ⟨rfl, rfl, rfl⟩

/-- Claim C6 (code bug): when a single extra layer is requested (the
spec's own scenario: both files ask for psf file `"psf.fits"`), the
duplicate write is indeed skipped and exactly one write call reaches
that path.  But the skip bookkeeping reads and writes
`last_file_name[key]` where `key` is the leaked Python 2 comprehension
variable — permanently `'badpix'` — instead of `extra_key`, so the three
layers share one tracking slot.  With two layers per file (psf
`"psf.fits"` and weight `"weight.fits"` on both files), each layer's
assignment overwrites the shared slot before the other layer's test, no
duplicate is detected, and `"psf.fits"` receives two write calls where
the claim requires exactly one. -/
theorem extra_file_skip_stale_key :
    writeCallsTo
      (ProcessExtras
        (fun _ => ⟨some ⟨some "psf.fits", none⟩, none, none⟩) 2)
      "psf.fits" = 1 ∧
    writeCallsTo
      (ProcessExtras
        (fun _ => ⟨some ⟨some "psf.fits", none⟩,
                   some ⟨some "weight.fits", none⟩, none⟩) 2)
      "psf.fits" = 2 := by
  refine ⟨by decide, by decide⟩

/-- Claim C2: a Built-Safe slot (cached object present, safety flag
true) is returned unchanged by any number of further `ProcessInput`
calls with zero additional constructor invocations; and starting from an
unbuilt slot whose kwargs resolve safely, one call builds it (counter
reaches 1) and every further call leaves state, caches and counter
unchanged, so the counter stays at 1 over repeated calls. -/
theorem ensurebuilt_idempotent_confirmed :
    (∀ (loader : InputLoader) (so : Bool) (field : Nat) (st : SlotState)
        (cache : List CachedValue) (k : Nat),
        builtSafe st = true →
        repeatProcessSlot loader so field k st cache =
          .ok ⟨st, cache, 0⟩) ∧
    (∀ (loader : InputLoader) (so : Bool) (field kw : Nat)
        (cache : List CachedValue) (k : Nat),
        loader.getKwargs field = .ok (kw, true) →
        repeatProcessSlot loader so field (k + 1) ⟨none, none⟩ cache =
          .ok ⟨⟨some (loader.init_func kw), some true⟩,
               loader.types.foldl RemoveCurrent cache, 1⟩) := by
  constructor
  · intro loader so field st cache k h
    exact repeatProcessSlot_builtSafe loader so field k st cache h
  · intro loader so field kw cache k hkw
    have hfirst : processInputSlot loader so field ⟨none, none⟩ cache =
        .ok ⟨⟨some (loader.init_func kw), some true⟩,
             loader.types.foldl RemoveCurrent cache, 1⟩ := by
      simp [processInputSlot, builtSafe, truthySafe, hkw]
    rw [repeatProcessSlot, hfirst]
    dsimp only
    rw [repeatProcessSlot_builtSafe loader so field k _ _
        (by simp [builtSafe, truthySafe])]
    rfl

/-- Witness for C2: a Built-Safe slot survives 5 calls untouched, and an
unbuilt slot under `idLoader` is built exactly once across 4 calls. -/
theorem ensurebuilt_idempotent_confirmed_witness :
    builtSafe ⟨some 10, some true⟩ = true ∧
    repeatProcessSlot idLoader false 0 5 ⟨some 10, some true⟩ [] =
      .ok ⟨⟨some 10, some true⟩, [], 0⟩ ∧
    idLoader.getKwargs 0 = .ok (3, true) ∧
    repeatProcessSlot idLoader false 0 4 ⟨none, none⟩ [⟨"v", "Catalog"⟩] =
      .ok ⟨⟨some 10, some true⟩, [], 1⟩ :=
  ⟨by decide,
   ensurebuilt_idempotent_confirmed.1 idLoader false 0 ⟨some 10, some true⟩
     [] 5 (by decide),
   rfl,
   ensurebuilt_idempotent_confirmed.2 idLoader false 0 3
     [⟨"v", "Catalog"⟩] 3 rfl⟩

/-- Claim C3 counterexample: the claim as stated quantifies over *any*
exception raised while resolving a slot's construction arguments in the
safe_only pre-pass — but input.py lines 153-154 re-raise
`KeyboardInterrupt` even there, so with a loader whose kwargs resolution
raises `KeyboardInterrupt` the pre-pass propagates the error instead of
recording the slot as unbuilt/unsafe and continuing. -/
theorem prepass_interrupt_counterexample :
    processInputSlots kbLoader true [(0, ⟨none, none⟩)] [] =
      .error PyExc.keyboardInterrupt := rfl

/-- Claim C3 amended: if resolving a slot's construction arguments
raises an exception *other than `KeyboardInterrupt`* during the
safe_only pre-pass, `ProcessInput` records that slot as unbuilt/unsafe
(`None`/`None`) and continues to the next slot without propagating the
error; a `KeyboardInterrupt` propagates even in the pre-pass; outside
the pre-pass the same construction failure propagates to the caller. -/
theorem prepass_error_tolerated_amended
    (loader : InputLoader) (field : Nat) (st : SlotState) (msg : String)
    (rest : List (Nat × SlotState)) (cache : List CachedValue)
    (hkw : loader.getKwargs field = .error (PyExc.err msg))
    (hst : builtSafe st = false) :
    processInputSlots loader true ((field, st) :: rest) cache =
      (processInputSlots loader true rest cache).map
        (fun r => (SlotState.mk none none :: r.1, r.2.1, r.2.2)) ∧
    processInputSlots loader false ((field, st) :: rest) cache =
      Except.error (PyExc.err msg) := by
  have hslot_t : processInputSlot loader true field st cache =
      .ok ⟨⟨none, none⟩, cache, 0⟩ := by
    simp [processInputSlot, hst, hkw]
  have hslot_f : processInputSlot loader false field st cache =
      .error (PyExc.err msg) := by
    simp [processInputSlot, hst, hkw]
  constructor
  · rw [processInputSlots, hslot_t]
    dsimp only
    cases hres : processInputSlots loader true rest cache with
    | error e => rfl
    | ok tri =>
      obtain ⟨sts, cache', n⟩ := tri
      dsimp only [Except.map]
      rw [Nat.zero_add]
  · rw [processInputSlots, hslot_f]

/-- Witness for the amended C3 with `errLoader` (kwargs resolution
raises an ordinary exception) on a two-slot list. -/
theorem prepass_error_tolerated_amended_witness :
    errLoader.getKwargs 0 = .error (PyExc.err "no rng yet") ∧
    builtSafe ⟨none, none⟩ = false ∧
    (processInputSlots errLoader true
        [(0, ⟨none, none⟩), (1, ⟨some 5, some true⟩)] [] =
      (processInputSlots errLoader true [(1, ⟨some 5, some true⟩)] []).map
        (fun r => (SlotState.mk none none :: r.1, r.2.1, r.2.2)) ∧
     processInputSlots errLoader false
        [(0, ⟨none, none⟩), (1, ⟨some 5, some true⟩)] [] =
      Except.error (PyExc.err "no rng yet")) :=
  ⟨rfl, rfl,
   prepass_error_tolerated_amended errLoader 0 ⟨none, none⟩ "no rng yet"
     [(1, ⟨some 5, some true⟩)] [] rfl rfl⟩

/-- Claim C4: whenever a slot is (re)built (constructor invoked, counter
1), exactly the memoized values whose value type appears in the slot's
loader's declared `types` list are dropped from the value store and
every other memoized value survives; when no build happens (counter 0)
the value store is untouched. -/
theorem invalidation_exact_confirmed
    (loader : InputLoader) (so : Bool) (field : Nat) (st : SlotState)
    (cache : List CachedValue) (res : SlotResult)
    (h : processInputSlot loader so field st cache = .ok res) :
    (res.constructions = 1 →
      ∀ cv, cv ∈ res.cache ↔
        (cv ∈ cache ∧ cv.valueType ∉ loader.types)) ∧
    (res.constructions = 0 → res.cache = cache) := by
  unfold processInputSlot at h
  by_cases hb : builtSafe st = true
  · rw [if_pos hb] at h
    injection h with h
    subst h
    refine ⟨fun h1 => ?_, fun _ => rfl⟩
    simp at h1
  · rw [if_neg hb] at h
    cases hkw : loader.getKwargs field with
    | error e =>
      rw [hkw] at h
      cases e with
      | keyboardInterrupt => exact Except.noConfusion h
      | err m =>
        dsimp only at h
        cases so with
        | true =>
          rw [if_pos rfl] at h
          injection h with h
          subst h
          refine ⟨fun h1 => ?_, fun _ => rfl⟩
          simp at h1
        | false =>
          rw [if_neg (by simp)] at h
          exact Except.noConfusion h
    | ok p =>
      obtain ⟨kw, safe⟩ := p
      rw [hkw] at h
      dsimp only at h
      by_cases hsf : (so && !safe) = true
      · rw [if_pos hsf] at h
        injection h with h
        subst h
        refine ⟨fun h1 => ?_, fun _ => rfl⟩
        simp at h1
      · rw [if_neg hsf] at h
        injection h with h
        subst h
        refine ⟨fun _ cv => ?_, fun h0 => ?_⟩
        · exact mem_foldl_RemoveCurrent loader.types cache cv
        · simp at h0

/-- Witness for C4: rebuilding a slot of `catLoader` (declared types
`["Catalog"]`) over a store holding one `Catalog`-typed and one
`Dict`-typed value drops exactly the `Catalog`-typed one. -/
theorem invalidation_exact_confirmed_witness :
    (processInputSlot catLoader false 0 ⟨none, none⟩
        [⟨"x", "Catalog"⟩, ⟨"y", "Dict"⟩] =
      .ok ⟨⟨some 3, some false⟩, [⟨"y", "Dict"⟩], 1⟩) ∧
    (((⟨⟨some 3, some false⟩, [⟨"y", "Dict"⟩], 1⟩ : SlotResult).constructions
        = 1 →
      ∀ cv, cv ∈ (⟨⟨some 3, some false⟩, [⟨"y", "Dict"⟩], 1⟩
          : SlotResult).cache ↔
        (cv ∈ [⟨"x", "Catalog"⟩, ⟨"y", "Dict"⟩] ∧
         cv.valueType ∉ catLoader.types)) ∧
     ((⟨⟨some 3, some false⟩, [⟨"y", "Dict"⟩], 1⟩ : SlotResult).constructions
        = 0 →
      (⟨⟨some 3, some false⟩, [⟨"y", "Dict"⟩], 1⟩ : SlotResult).cache =
        [⟨"x", "Catalog"⟩, ⟨"y", "Dict"⟩])) :=
  ⟨rfl,
   invalidation_exact_confirmed catLoader false 0 ⟨none, none⟩
     [⟨"x", "Catalog"⟩, ⟨"y", "Dict"⟩]
     ⟨⟨some 3, some false⟩, [⟨"y", "Dict"⟩], 1⟩ rfl⟩

/-- Claim C9 counterexample: when the input manager is wanted
(`output.nproc = 2`, not inside a worker, no manager yet) and
`InputManager().start()` fails, `ProcessInput` does *not* fall back to
local construction — the startup failure propagates to the caller and no
slot is built, refuting the claimed fallback. -/
theorem manager_failure_counterexample :
    ProcessInput mgrConfig false false true idLoader [(0, ⟨none, none⟩)] [] =
      .error (Sum.inl ManagerError.startupFailure) := rfl

/-- Claim C9 amended: if starting the shared-object input manager fails,
the failure propagates out of `ProcessInput` (there is no handler around
`config['input_manager'].start()` and no fallback to per-worker local
construction). -/
theorem manager_failure_amended (c : PIConfig) (fso so : Bool)
    (loader : InputLoader) (slots : List (Nat × SlotState))
    (cache : List CachedValue)
    (hm : useManager c fso = true) (hnm : c.hasInputManager = false) :
    ProcessInput c fso so true loader slots cache =
      .error (Sum.inl ManagerError.startupFailure) := by
  unfold ProcessInput setupInputManager
  rw [hm, hnm]
  rfl

/-- Witness for the amended C9 at the concrete config `mgrConfig`. -/
theorem manager_failure_amended_witness :
    useManager mgrConfig false = true ∧
    mgrConfig.hasInputManager = false ∧
    ProcessInput mgrConfig false true true idLoader [] [] =
      .error (Sum.inl ManagerError.startupFailure) :=
  ⟨rfl, rfl, manager_failure_amended mgrConfig false true idLoader [] [] rfl rfl⟩

/-- Claim C8: the object-count pre-computation returns the count of the
first configured count-capable input type in registry iteration order,
whatever any later count-capable type would report; and when no
configured input type is count-capable it returns `None`. -/
theorem nobjects_first_registry_confirmed :
    (∀ (pre post : List (String × NObjInput)) (k : String) (l : NObjInput)
        (keys : List String),
        (∀ p ∈ pre, ¬(p.1 ∈ keys ∧ p.2.has_nobj = true)) →
        k ∈ keys → l.has_nobj = true →
        ProcessInputNObjects (pre ++ (k, l) :: post) true keys =
          some l.nobjects) ∧
    (∀ (registry : List (String × NObjInput)) (keys : List String),
        (∀ p ∈ registry, ¬(p.1 ∈ keys ∧ p.2.has_nobj = true)) →
        ProcessInputNObjects registry true keys = none) := by
  constructor
  · intro pre post k l keys hpre hk hl
    show processInputNObjectsAux keys (pre ++ (k, l) :: post) =
      some l.nobjects
    exact processInputNObjectsAux_first keys pre post k l hpre hk hl
  · intro registry keys h
    show processInputNObjectsAux keys registry = none
    exact processInputNObjectsAux_none keys registry h

/-- Witness for C8: with both `catalog` (count 10) and `real_catalog`
(count 25) configured and count-capable, the earlier registry entry
`catalog` wins and 10 is returned; the non-count-capable `dict` entry
before it is passed over. -/
theorem nobjects_first_registry_confirmed_witness :
    (∀ p ∈ [("dict", (⟨false, 0⟩ : NObjInput))],
        ¬(p.1 ∈ ["catalog", "real_catalog", "dict"] ∧
          p.2.has_nobj = true)) ∧
    "catalog" ∈ ["catalog", "real_catalog", "dict"] ∧
    (⟨true, 10⟩ : NObjInput).has_nobj = true ∧
    ProcessInputNObjects
        ([("dict", ⟨false, 0⟩)] ++
          ("catalog", ⟨true, 10⟩) :: [("real_catalog", ⟨true, 25⟩)])
        true ["catalog", "real_catalog", "dict"] = some 10 :=
  ⟨by decide, by decide, rfl,
   nobjects_first_registry_confirmed.1 [("dict", ⟨false, 0⟩)]
     [("real_catalog", ⟨true, 25⟩)] "catalog" ⟨true, 10⟩
     ["catalog", "real_catalog", "dict"] (by decide) (by decide) rfl⟩

end GalSim
